import Mathlib

/-!
Shallow embedding of the swarm-mcp coordination core (Go) and proofs
about the claims on its specification.

Conventions:
* Go `string` is Lean `String`; Go `int`/`int64` is Lean `Int` (no claim
  exercises arithmetic near the 64-bit boundary).
* The persistent store is passed explicitly: list-of-pairs maps keyed by
  file path / token name, and entity records are Lean structures mirroring
  the Go structs' relevant fields.
* `time.Now().UnixMilli()` is a `nowMs : Int` parameter; RFC3339 strings
  that are only compared for order are modelled as `Int` instants.
-/

namespace Swarm

/-- `strings.TrimSpace`: drop leading and trailing whitespace. Modelled
over the character list so that it evaluates in the kernel. -/
def trimGo (s : String) : String :=
  String.mk (((s.toList.dropWhile Char.isWhitespace).reverse.dropWhile Char.isWhitespace).reverse)

/-- `strings.TrimSpace` followed by the emptiness check used by
`trimRequired` in the Go source: returns the trimmed string when
non-empty, `none` otherwise. -/
def trimRequired (v : String) : Option String :=
  let t := trimGo v
  if t = "" then none else some t

-- Status constants (models.go).
def issueOpen : String := "open"
def issueInProgress : String := "in_progress"
def issueDone : String := "done"
def issueCanceled : String := "canceled"

def issueTaskOpen : String := "open"
def issueTaskInProgress : String := "in_progress"
def issueTaskDone : String := "done"
def issueTaskBlocked : String := "blocked"
def issueTaskCanceled : String := "canceled"
/-- Legacy task status referenced by `SweepExpired`. -/
def issueTaskSubmitted : String := "submitted"

def deliveryOpen : String := "open"
def deliveryInReview : String := "in_review"
def deliveryApproved : String := "approved"
def deliveryRejected : String := "rejected"

def submissionOpen : String := "open"

def eventIssueTaskExpired : String := "issue_task_expired"

structure SubmissionArtifacts where
  summary : String
  changedFiles : List String
  diff : String
  links : List String
  testCases : List String
  testResult : String
  testOutput : String
  deriving Repr, DecidableEq

def emptySubmissionArtifacts : SubmissionArtifacts :=
  { summary := "", changedFiles := [], diff := "", links := [],
    testCases := [], testResult := "", testOutput := "" }

structure DeliveryArtifacts where
  testResult : String
  testCases : List String
  changedFiles : List String
  reviewedRefs : List String
  testOutput : String
  knownRisks : String
  deriving Repr, DecidableEq

structure ReviewArtifacts where
  reviewSummary : String
  reviewedRefs : List String
  deriving Repr, DecidableEq

def emptyReviewArtifacts : ReviewArtifacts :=
  { reviewSummary := "", reviewedRefs := [] }

structure FeedbackDetail where
  dimension : String
  severity : String
  filePath : String
  lineRange : String
  content : String
  suggestion : String
  deriving Repr, DecidableEq

structure IssueTask where
  id : String
  issueID : String
  subject : String
  difficulty : String
  points : Int
  requiredIssueDocs : List String
  requiredTaskDocs : List String
  status : String
  reservedToken : String
  reservedUntilMs : Int
  leaseExpiresAtMs : Int
  claimedBy : String
  submitter : String
  submission : String
  refs : String
  submissionArtifacts : SubmissionArtifacts
  verdict : String
  feedback : String
  completionScore : Int
  reviewArtifacts : ReviewArtifacts
  feedbackDetails : List FeedbackDetail
  nextStepToken : String
  updatedAt : String
  deriving Repr, DecidableEq

/-- A base task value for building concrete witnesses. -/
def emptyTask : IssueTask :=
  { id := "", issueID := "", subject := "", difficulty := "", points := 0,
    requiredIssueDocs := [], requiredTaskDocs := [], status := "",
    reservedToken := "", reservedUntilMs := 0, leaseExpiresAtMs := 0,
    claimedBy := "", submitter := "", submission := "", refs := "",
    submissionArtifacts := emptySubmissionArtifacts, verdict := "",
    feedback := "", completionScore := 0,
    reviewArtifacts := emptyReviewArtifacts, feedbackDetails := [],
    nextStepToken := "", updatedAt := "" }

structure Issue where
  id : String
  subject : String
  status : String
  leaseExpiresAtMs : Int
  updatedAt : String
  deriving Repr, DecidableEq

structure Delivery where
  id : String
  issueID : String
  summary : String
  refs : String
  artifacts : DeliveryArtifacts
  status : String
  deliveredBy : String
  claimedBy : String
  reviewedBy : String
  feedback : String
  deliveredAt : String
  claimedAt : String
  reviewedAt : String
  leaseExpiresAtMs : Int
  updatedAt : String
  deriving Repr, DecidableEq

structure NextStep where
  type : String
  taskID : String
  deriving Repr, DecidableEq

structure NextStepToken where
  token : String
  issueID : String
  actor : String
  nextStep : NextStep
  attached : Bool
  attachedAt : String
  used : Bool
  createdAt : String
  usedAt : String
  deriving Repr, DecidableEq

structure IssueWorkerState where
  issueID : String
  workerID : String
  totalPoints : Int
  consecutiveLowScores : Int
  updatedAt : String
  deriving Repr, DecidableEq

structure IssueEvent where
  seq : Int
  type : String
  issueID : String
  taskID : String
  actor : String
  kind : String
  detail : String
  timestamp : String
  deriving Repr, DecidableEq

structure FileLock where
  leaseID : String
  owner : String
  taskID : String
  file : String
  acquiredAt : Int
  expiresAt : Int
  lastHeartbeat : Int
  deriving Repr, DecidableEq

structure Lease where
  leaseID : String
  owner : String
  taskID : String
  files : List String
  acquiredAt : Int
  expiresAt : Int
  lastHeartbeat : Int
  deriving Repr, DecidableEq

/-! ### Timeout normalization (C4)

`normalizeTimeoutSec` is the floor applied by most blocking entrypoints
(`part_007`): non-positive or below-default timeouts are raised to
`defaultTimeoutSec`. -/

def normalizeTimeoutSec (defaultTimeoutSec timeoutSec : Int) : Int :=
  if timeoutSec ≤ 0 then defaultTimeoutSec
  else if timeoutSec < defaultTimeoutSec then defaultTimeoutSec
  else timeoutSec

/-- Effective wait timeout of `WaitIssues` (issue_issue_flow.go): a
non-positive caller timeout becomes 600 seconds, a positive one is kept
unchanged. -/
def waitIssuesTimeout (timeoutSec : Int) : Int :=
  if timeoutSec ≤ 0 then 600 else timeoutSec

/-- Effective wait timeout of `WaitIssueTasks` (part_006). -/
def waitIssueTasksTimeout (defaultTimeoutSec timeoutSec : Int) : Int :=
  normalizeTimeoutSec defaultTimeoutSec timeoutSec

/-- Effective wait timeout of `WaitIssueTaskEvents` (issue_message_wait.go). -/
def waitIssueTaskEventsTimeout (defaultTimeoutSec timeoutSec : Int) : Int :=
  normalizeTimeoutSec defaultTimeoutSec timeoutSec

/-- Effective wait timeout of `WaitDeliveries` (delivery.go). -/
def waitDeliveriesTimeout (defaultTimeoutSec timeoutSec : Int) : Int :=
  normalizeTimeoutSec defaultTimeoutSec timeoutSec

/-- Effective wait timeout of `SubmitDelivery` (delivery.go). -/
def submitDeliveryTimeout (defaultTimeoutSec timeoutSec : Int) : Int :=
  normalizeTimeoutSec defaultTimeoutSec timeoutSec

/-- Effective wait timeout of `AskIssueTask` (issue_message_wait.go). -/
def askIssueTaskTimeout (defaultTimeoutSec timeoutSec : Int) : Int :=
  normalizeTimeoutSec defaultTimeoutSec timeoutSec

/-- Effective wait timeout of `SubmitTask` (part_006): the caller-supplied
timeout is ignored and the poll uses `defaultTimeoutSec` directly. -/
def submitIssueTaskWaitTimeout (defaultTimeoutSec timeoutSec : Int) : Int :=
  defaultTimeoutSec

/-! ### WaitIssueTaskEvents entry gate (C9)

`WaitIssueTaskEvents` (issue_message_wait.go, lines 220-268) returns an
empty events array before entering the blocking inbox poll when the issue
is terminal, has no tasks, or all its tasks are terminal. -/

inductive WaitGate where
  | immediateEmpty
  | blockOnInbox
  deriving Repr, DecidableEq

/-- The early-return decision of `WaitIssueTaskEvents`, evaluated on the
issue and its task list as read after the expiry sweep. -/
def waitIssueTaskEventsGate (issue : Issue) (tasks : List IssueTask) : WaitGate :=
  if issue.status = issueDone ∨ issue.status = issueCanceled then .immediateEmpty
  else if tasks = [] then .immediateEmpty
  else if tasks.all (fun t => t.status == issueTaskDone || t.status == issueTaskCanceled) then
    .immediateEmpty
  else .blockOnInbox

/-! ### CreateDelivery (C1) -/

/-- The deduplicated union of the tasks' cached
`submission_artifacts.changed_files`, skipping whitespace-blank entries
(delivery.go, lines 50-58; Go builds a `map[string]struct{}` whose size is
the number of distinct non-blank files). -/
def changedUnion (tasks : List IssueTask) : List String :=
  tasks.foldl (fun acc t =>
    t.submissionArtifacts.changedFiles.foldl (fun acc f =>
      if trimGo f = "" then acc else if f ∈ acc then acc else acc ++ [f]) acc) []

/-- `CreateDelivery` (delivery.go, lines 12-100). The stored task list and
the issue-existence check are explicit parameters; `deliveryID` and
`deliveredAt` stand for `GenID`/`NowStr`. -/
def createDelivery (actor issueID summary refs : String) (artifacts : DeliveryArtifacts)
    (tasks : List IssueTask) (issueExists : Bool)
    (deliveryID deliveredAt : String) : Except String Delivery :=
  if issueID = "" then .error "issue_id is required" else
  let actor := if actor = "" then "lead" else actor
  match trimRequired summary with
  | none => .error "summary is required"
  | some _ =>
    if artifacts.testResult ≠ "passed" ∧ artifacts.testResult ≠ "failed" then
      .error "artifacts.test_result must be 'passed' or 'failed'"
    else if artifacts.testCases = [] then .error "artifacts.test_cases is required"
    else if artifacts.changedFiles = [] then .error "artifacts.changed_files is required"
    else if artifacts.reviewedRefs = [] then .error "artifacts.reviewed_refs is required"
    else if tasks.filter (fun t => t.status ≠ issueTaskDone) ≠ [] then
      .error "cannot deliver issue: tasks not done"
    else if artifacts.changedFiles.length < (changedUnion tasks).length then
      .error "artifacts.changed_files is insufficient; please review and include all changed files"
    else if ¬ issueExists then .error "issue not found"
    else .ok { id := deliveryID, issueID := issueID, summary := trimGo summary, refs := trimGo refs,
               artifacts := artifacts, status := deliveryOpen, deliveredBy := actor,
               claimedBy := "", reviewedBy := "", feedback := "", deliveredAt := deliveredAt,
               claimedAt := "", reviewedAt := "", leaseExpiresAtMs := 0, updatedAt := deliveredAt }

/-- Whether an `Except` result is a success. -/
def isOkE {ε α : Type} : Except ε α → Bool
  | .ok _ => true
  | .error _ => false

/-- An approved ("done") task whose cached submission artifacts list
`a.go` as the changed file; used in concrete instances. -/
def doneTaskA : IssueTask :=
  { emptyTask with
    id := "task-1",
    issueID := "issue-1",
    status := issueTaskDone,
    submissionArtifacts := { emptySubmissionArtifacts with changedFiles := ["a.go"] } }

/-- Delivery artifacts naming only `b.go`: same count as the union
`["a.go"]` but not a superset of it. -/
def artifactsOnlyB : DeliveryArtifacts :=
  { testResult := "passed", testCases := ["go test"], changedFiles := ["b.go"],
    reviewedRefs := ["b.go"], testOutput := "ok", knownRisks := "" }


/-! ### SubmitTask (C3) -/

structure Submission where
  id : String
  issueID : String
  taskID : String
  workerID : String
  artifacts : SubmissionArtifacts
  status : String
  feedback : String
  reviewedBy : String
  completionScore : Int
  createdAt : String
  updatedAt : String
  deriving Repr, DecidableEq

/-- The artifact validation performed by `SubmitTask` (part_006, lines
287-301), in source order: trimmed-non-empty summary, at least one
changed file, at least one test case, trimmed-non-empty test result and
test output. Returns the first error, `none` when valid. -/
def validateSubmissionArtifactsGo (a : SubmissionArtifacts) : Option String :=
  if trimGo a.summary = "" then some "artifacts.summary is required"
  else if a.changedFiles = [] then some "artifacts.changed_files is required"
  else if a.testCases = [] then some "artifacts.test_cases is required"
  else if trimGo a.testResult = "" then some "artifacts.test_result is required"
  else if trimGo a.testOutput = "" then some "artifacts.test_output is required"
  else none

/-- `SubmitTask` (part_006, lines 279-358) up to the creation of the
Submission entity: validation, claim and state checks, lease extension,
and the created Submission (status `open`). The blocking review poll that
follows does not affect creation. `subID`/`nowStr` stand for
`GenID`/`NowStr`. -/
def submitTaskCore (issueID taskID actor : String) (artifacts : SubmissionArtifacts)
    (task : IssueTask) (nowMs defaultTimeoutSec : Int) (subID nowStr : String) :
    Except String (IssueTask × Submission) :=
  if issueID = "" ∨ taskID = "" then .error "issue_id and task_id are required" else
  let actor := if actor = "" then "worker" else actor
  match validateSubmissionArtifactsGo artifacts with
  | some e => .error e
  | none =>
    if trimGo task.claimedBy = "" then .error "task is not claimed"
    else if trimGo task.claimedBy ≠ trimGo actor then .error "task is not claimed by actor"
    else if task.status ≠ issueTaskInProgress ∧ task.status ≠ issueTaskBlocked then
      .error "task is not in progress"
    else
      let minLeaseMs := nowMs + defaultTimeoutSec * 1000
      let task' := if task.leaseExpiresAtMs < minLeaseMs then
          { task with leaseExpiresAtMs := minLeaseMs, updatedAt := nowStr } else task
      .ok (task', { id := subID, issueID := issueID, taskID := task.id, workerID := actor,
                    artifacts := artifacts, status := submissionOpen, feedback := "",
                    reviewedBy := "", completionScore := 0, createdAt := nowStr,
                    updatedAt := nowStr })

/-- Submission artifacts that are fully populated except that
`test_result` is `"flaky"`, outside `{passed, failed}`. -/
def flakyArtifacts : SubmissionArtifacts :=
  { summary := "done", changedFiles := ["a.go"], diff := "", links := [],
    testCases := ["go test"], testResult := "flaky", testOutput := "ok" }

/-- An in-progress task claimed by `worker-1`. -/
def claimedTask : IssueTask :=
  { emptyTask with
    id := "task-1",
    issueID := "issue-1",
    status := issueTaskInProgress,
    claimedBy := "worker-1" }

/-! ### WaitDeliveries (C2) -/

/-- Insertion into a list sorted by the Boolean preorder `le`. -/
def insertBy {α : Type} (le : α → α → Bool) (x : α) : List α → List α
  | [] => [x]
  | y :: ys => if le x y then x :: y :: ys else y :: insertBy le x ys

/-- Insertion sort by the Boolean preorder `le`; models Go's
`sort.Slice`/`sort.SliceStable` whose comparator is a total preorder. -/
def sortByLe {α : Type} (le : α → α → Bool) : List α → List α
  | [] => []
  | x :: xs => insertBy le x (sortByLe le xs)

/-- `strings.ToLower`, over the character list so it evaluates. -/
def toLowerGo (s : String) : String :=
  String.mk (s.toList.map Char.toLower)

/-- `ListDeliveries` (delivery.go, lines 113-166) on an in-memory store,
with the issue/deliveredBy/reviewedBy filters empty as in the
`WaitDeliveries` call: normalize the status filter (trim, lowercase,
empty means `all`), filter, and sort by `delivered_at` descending. -/
def listDeliveriesGo (deliveries : List Delivery) (status : String) : List Delivery :=
  let status := toLowerGo (trimGo status)
  let status := if status = "" then "all" else status
  sortByLe (fun a b => b.deliveredAt ≤ a.deliveredAt)
    (deliveries.filter (fun d => status == "all" || d.status == status))

/-- One successful poll round of `WaitDeliveries` (delivery.go, lines
316-350): default the status to `open`, default the limit to 50, list
matching deliveries and truncate. The store is read-only here — the Go
loop neither claims an acceptor inbox item nor calls `ClaimDelivery`. -/
def waitDeliveriesStep (deliveries : List Delivery) (status : String) (limit : Int) :
    List Delivery :=
  let status := if trimGo status = "" then deliveryOpen else status
  let limit := if limit ≤ 0 then (50 : Int) else limit
  (listDeliveriesGo deliveries status).take limit.toNat

/-- An open, unclaimed delivery sitting in the store. -/
def openDeliveryD : Delivery :=
  { id := "delivery-1", issueID := "issue-1", summary := "s", refs := "",
    artifacts := artifactsOnlyB, status := deliveryOpen, deliveredBy := "lead",
    claimedBy := "", reviewedBy := "", feedback := "", deliveredAt := "t0",
    claimedAt := "", reviewedAt := "", leaseExpiresAtMs := 0, updatedAt := "t0" }


/-! ### SweepExpired over tasks (C7) -/

/-- The expiry condition of the task sweep in `SweepExpired` (part_007,
lines 176-178): status in_progress, blocked or submitted, a positive
lease expiry, and the lease expiry strictly before now. -/
def taskSweepExpiredCond (nowMs : Int) (t : IssueTask) : Bool :=
  (t.status == issueTaskInProgress || t.status == issueTaskBlocked ||
    t.status == issueTaskSubmitted) &&
  decide (0 < t.leaseExpiresAtMs) && decide (t.leaseExpiresAtMs < nowMs)

/-- The reset applied by `SweepExpired` to an expired task (part_007,
lines 179-193): back to open with claimer, submitter, submission and
review state cleared. -/
def sweepTaskGo (nowMs : Int) (nowStr : String) (t : IssueTask) : IssueTask :=
  if taskSweepExpiredCond nowMs t then
    { t with
      status := issueTaskOpen,
      claimedBy := "",
      submitter := "",
      submission := "",
      refs := "",
      submissionArtifacts := emptySubmissionArtifacts,
      verdict := "",
      feedback := "",
      completionScore := 0,
      reviewArtifacts := emptyReviewArtifacts,
      feedbackDetails := [],
      updatedAt := nowStr }
  else t

/-- The task pass of `SweepExpired` for one issue: the rewritten task
files and the `issue_task_expired` events appended for each expired task
(part_007, lines 171-196). -/
def sweepTasksGo (nowMs : Int) (nowStr issueID : String) (tasks : List IssueTask) :
    List IssueTask × List IssueEvent :=
  (tasks.map (sweepTaskGo nowMs nowStr),
   tasks.filterMap (fun t =>
     if taskSweepExpiredCond nowMs t then
       some { seq := 0, type := eventIssueTaskExpired, issueID := issueID, taskID := t.id,
              actor := "system", kind := "",
              detail := "expired: " ++ t.status ++ " claimed_by=" ++ t.claimedBy,
              timestamp := nowStr }
     else none))

/-- An in-progress task whose lease expired at 100 ms. -/
def expiredTask : IssueTask :=
  { emptyTask with
    id := "task-1",
    issueID := "issue-1",
    status := issueTaskInProgress,
    leaseExpiresAtMs := 100,
    claimedBy := "worker-1",
    submitter := "worker-1" }

/-! ### GetNextStepToken: worker state (C10) and candidate scan (C6) -/

/-- `baseDifficultyByPoints` (delivery.go, lines 439-447). -/
def baseDifficultyByPoints (total : Int) : String :=
  if total ≥ 30 then "focus"
  else if total ≥ 10 then "medium"
  else "easy"

/-- `downgradeDifficulty` (delivery.go, lines 428-437). -/
def downgradeDifficulty (d : String) : String :=
  if d = "focus" then "medium"
  else if d = "medium" then "easy"
  else "easy"

/-- `difficultyFallbackOrder` (delivery.go, lines 449-458). -/
def difficultyFallbackOrder (d : String) : List String :=
  if d = "focus" then ["focus", "medium", "easy"]
  else if d = "medium" then ["medium", "easy"]
  else ["easy"]

structure GnstStateOut where
  state : IssueWorkerState
  nextDifficulty : String
  deriving Repr, DecidableEq

/-- The worker-state update of `GetNextStepToken` (delivery.go, lines
496-525): unconditionally add the finished task's points to
`total_points`, then update the consecutive-low-score counter and derive
the next difficulty (with the allowed-failures buffer at 50/100 points).
The updated state is persisted before the candidate scan. -/
def gnstStateStep (st : IssueWorkerState) (finishedPoints completionScore : Int)
    (nowStr : String) : GnstStateOut :=
  let total := st.totalPoints + finishedPoints
  let base := baseDifficultyByPoints total
  if completionScore < 2 then
    let low := st.consecutiveLowScores + 1
    let allowed : Int := if total ≥ 100 then 2 else if total ≥ 50 then 1 else 0
    { state := { st with
        totalPoints := total,
        consecutiveLowScores := low,
        updatedAt := nowStr },
      nextDifficulty := if low > allowed then downgradeDifficulty base else base }
  else
    { state := { st with
        totalPoints := total,
        consecutiveLowScores := 0,
        updatedAt := nowStr },
      nextDifficulty := base }

/-- Order used by `pickTaskByTier`'s sort (delivery.go, lines 464-469):
points descending, then id ascending. -/
def taskOrd (a b : IssueTask) : Prop :=
  b.points < a.points ∨ (a.points = b.points ∧ a.id ≤ b.id)

instance : DecidableRel taskOrd := fun a b => by
  unfold taskOrd
  infer_instance

instance : IsTotal IssueTask taskOrd := ⟨by
  intro a b
  unfold taskOrd
  rcases lt_trichotomy a.points b.points with h | h | h
  · exact Or.inr (Or.inl h)
  · rcases le_total a.id b.id with hid | hid
    · exact Or.inl (Or.inr ⟨h, hid⟩)
    · exact Or.inr (Or.inr ⟨h.symm, hid⟩)
  · exact Or.inl (Or.inl h)⟩

instance : IsTrans IssueTask taskOrd := ⟨by
  intro a b c hab hbc
  unfold taskOrd at *
  rcases hab with h1 | ⟨h1, h1'⟩ <;> rcases hbc with h2 | ⟨h2, h2'⟩
  · exact Or.inl (by omega)
  · exact Or.inl (by omega)
  · exact Or.inl (by omega)
  · exact Or.inr ⟨by omega, le_trans h1' h2'⟩⟩

/-- Two open easy tasks used in concrete scan instances. -/
def easyOne : IssueTask :=
  { emptyTask with
    id := "task-1",
    issueID := "issue-1",
    status := issueTaskOpen,
    difficulty := "easy",
    points := 1 }

def easyTwo : IssueTask :=
  { emptyTask with
    id := "task-2",
    issueID := "issue-1",
    status := issueTaskOpen,
    difficulty := "easy",
    points := 3 }

/-- The open tasks of the issue with the given difficulty (delivery.go,
lines 536-546). -/
def openCandidates (tasks : List IssueTask) (d : String) : List IssueTask :=
  tasks.filter (fun t => t.status == issueTaskOpen && t.difficulty == d)

/-- `pickTaskByTier` (delivery.go, lines 460-477): sort by points
descending then id ascending; at 100+ points take the highest-points
task, between 30 and 49 the lowest, otherwise the middle. -/
def pickTaskByTier (tasks : List IssueTask) (totalPoints : Int) : Option IssueTask :=
  if tasks = [] then none
  else
    let sorted := List.insertionSort taskOrd tasks
    if totalPoints ≥ 100 then sorted.head?
    else if 30 ≤ totalPoints ∧ totalPoints < 50 then sorted.getLast?
    else sorted[sorted.length / 2]?

/-- The per-difficulty candidate scan with fallback (delivery.go, lines
529-551): try each difficulty in order, stopping at the first that
yields a candidate. -/
def gnstScan (tasks : List IssueTask) (totalPoints : Int) : List String → Option IssueTask
  | [] => none
  | d :: rest =>
    match pickTaskByTier (openCandidates tasks d) totalPoints with
    | some t => some t
    | none => gnstScan tasks totalPoints rest

structure GnstResult where
  state : IssueWorkerState
  result : Except String (NextStepToken × Option IssueTask)
  deriving Repr

/-- The tail of `GetNextStepToken` after the worker-state save
(delivery.go, lines 552-592): mint an `end` token when the scan found no
candidate, otherwise re-check the chosen task (still open, not reserved
by an unexpired token) and mint a `claim_task` token while reserving the
task for 2 minutes. -/
def gnstFinish (issueID actor tokenID nowStr : String) (nowMs : Int)
    (stepState : IssueWorkerState) (scan : Option IssueTask) : GnstResult :=
  match scan with
  | none =>
    { state := stepState,
      result := .ok ({ token := tokenID, issueID := issueID, actor := actor,
                       nextStep := { type := "end", taskID := "" }, attached := false,
                       attachedAt := "", used := false, createdAt := nowStr,
                       usedAt := "" }, none) }
  | some chosen =>
    if chosen.status ≠ issueTaskOpen then
      { state := stepState, result := .error "next_step task is not open" }
    else if chosen.reservedToken ≠ "" ∧ 0 < chosen.reservedUntilMs ∧
        nowMs ≤ chosen.reservedUntilMs then
      { state := stepState, result := .error "next_step task is reserved" }
    else
      { state := stepState,
        result := .ok ({ token := tokenID, issueID := issueID, actor := actor,
                         nextStep := { type := "claim_task", taskID := chosen.id },
                         attached := false, attachedAt := "", used := false,
                         createdAt := nowStr, usedAt := "" },
                       some { chosen with
                              reservedToken := tokenID,
                              reservedUntilMs := nowMs + 2 * 60 * 1000,
                              updatedAt := nowStr }) }

/-- `GetNextStepToken` (delivery.go, lines 479-597): validation, the
worker-state update (persisted in `state` even when a later check
errors, mirroring the file write preceding the error return), then
`gnstFinish` on the candidate scan. -/
def getNextStepTokenCore (issueID actor workerID justFinishedTaskID : String)
    (completionScore : Int) (st : IssueWorkerState) (finished : IssueTask)
    (tasks : List IssueTask) (nowMs : Int) (tokenID nowStr : String) : GnstResult :=
  if issueID = "" ∨ workerID = "" ∨ justFinishedTaskID = "" then
    { state := st, result := .error "issue_id, task_id and worker_id are required" }
  else if completionScore ≠ 1 ∧ completionScore ≠ 2 ∧ completionScore ≠ 5 then
    { state := st, result := .error "invalid completion_score" }
  else
    gnstFinish issueID (if actor = "" then "lead" else actor) tokenID nowStr nowMs
      (gnstStateStep st finished.points completionScore nowStr).state
      (gnstScan tasks
        (gnstStateStep st finished.points completionScore nowStr).state.totalPoints
        (difficultyFallbackOrder
          (gnstStateStep st finished.points completionScore nowStr).nextDifficulty))

/-- A fresh per-issue worker state. -/
def freshWorkerState : IssueWorkerState :=
  { issueID := "issue-1", workerID := "worker-1", totalPoints := 0,
    consecutiveLowScores := 0, updatedAt := "" }

/-- A finished 20-point task. -/
def finished20 : IssueTask :=
  { emptyTask with
    id := "task-1",
    issueID := "issue-1",
    status := issueTaskDone,
    points := 20 }


/-! ### Lock manager: tryLockFiles (C8)

The file-lock store is an association list keyed by the cleaned file
path (`PathHash` is injective on paths, so hashing is dropped). -/

/-- Read the FileLock stored for a file, if any (`ReadJSON` on the
hashed path). -/
def lookupLock (locks : List (String × FileLock)) (file : String) : Option FileLock :=
  (locks.find? (fun p => p.1 == file)).map (·.2)

/-- Remove the FileLock file for a path (`store.Remove`). -/
def removeLock (locks : List (String × FileLock)) (file : String) :
    List (String × FileLock) :=
  locks.filter (fun p => p.1 != file)

/-- Overwrite the FileLock file for a path (`WriteJSON`). -/
def setLock (locks : List (String × FileLock)) (file : String) (l : FileLock) :
    List (String × FileLock) :=
  (file, l) :: removeLock locks file

/-- The structured content of the "locked by X" failure of
`tryLockFiles` (lock.go, lines 95-96): the conflicting file and the
holding lock's owner, task and expiry. -/
structure LockConflict where
  file : String
  owner : String
  taskID : String
  expiresAt : Int
  deriving Repr, DecidableEq

/-- The per-file loop of `tryLockFiles` (lock.go, lines 78-130): for each
file in order, an unexpired lock by another owner aborts the attempt,
removing every lock acquired earlier in the attempt; otherwise the lock
is (over)written — reentrant for the same owner, takeover when expired —
and the file is recorded as acquired. -/
def tryLockFilesGo (now ttlSec : Int) (leaseID taskID owner : String) :
    List String → List (String × FileLock) → List String →
    List (String × FileLock) × Except LockConflict Unit
  | [], locks, _ => (locks, .ok ())
  | file :: rest, locks, acquired =>
    let hasConflict :=
      match lookupLock locks file with
      | some existing =>
        if now < existing.expiresAt ∧ existing.owner ≠ owner then some existing else none
      | none => none
    match hasConflict with
    | some existing =>
      (acquired.foldl removeLock locks,
       .error { file := file, owner := existing.owner, taskID := existing.taskID,
                expiresAt := existing.expiresAt })
    | none =>
      let newLock : FileLock :=
        { leaseID := leaseID, owner := owner, taskID := taskID, file := file,
          acquiredAt := now, expiresAt := now + ttlSec, lastHeartbeat := now }
      tryLockFilesGo now ttlSec leaseID taskID owner rest (setLock locks file newLock)
        (file :: acquired)

/-- `tryLockFiles` (lock.go, lines 68-189) on the in-memory lock store:
run the per-file loop on the cleaned, sorted file list and, on success,
write the Lease. Returns the resulting file-lock store alongside. -/
def tryLockFilesRun (now ttlSec : Int) (leaseID taskID owner : String)
    (files : List String) (locks : List (String × FileLock)) :
    List (String × FileLock) × Except LockConflict Lease :=
  match tryLockFilesGo now ttlSec leaseID taskID owner files locks [] with
  | (locks', .ok ()) =>
    (locks', .ok { leaseID := leaseID, owner := owner, taskID := taskID, files := files,
                   acquiredAt := now, expiresAt := now + ttlSec, lastHeartbeat := now })
  | (locks', .error e) => (locks', .error e)

/-- A FileLock on `b.go` held by worker A until instant 100. -/
def lockByA : FileLock :=
  { leaseID := "l_A", owner := "A", taskID := "task-A", file := "b.go",
    acquiredAt := 0, expiresAt := 100, lastHeartbeat := 0 }


/-! ### ClaimTask (C5) -/

/-- The next-step token store keyed by token string; `WriteJSON`
overwrites. -/
def lookupToken (toks : List (String × NextStepToken)) (k : String) :
    Option NextStepToken :=
  (toks.find? (fun p => p.1 == k)).map (·.2)

def setToken (toks : List (String × NextStepToken)) (k : String) (tok : NextStepToken) :
    List (String × NextStepToken) :=
  (k, tok) :: toks.filter (fun p => p.1 != k)

/-- `calcLeaseExpiryMs` (part_007, lines 54-63). -/
def calcLeaseExpiryMs (nowMs extendSec defaultSec : Int) : Int :=
  let sec := if extendSec ≤ 0 then defaultSec else extendSec
  if sec ≤ 0 then 0 else nowMs + sec * 1000

structure ClaimOutcome where
  tokens : List (String × NextStepToken)
  result : Except String IssueTask
  deriving Repr

/-- The tail of `ClaimTask` after the reservation block (part_006, lines
247-269): required issue/task docs must exist, the task must be open;
then it is claimed with a fresh lease. The token store passes through
unchanged. -/
def claimFinish (actor : String) (issueDocs taskDocs : List String)
    (taskTTLSec nowMs : Int) (nowStr : String) (task : IssueTask)
    (tokens : List (String × NextStepToken)) : ClaimOutcome :=
  match task.requiredIssueDocs.find? (fun n => !issueDocs.contains n) with
  | some n => { tokens := tokens, result := .error ("missing required issue doc: " ++ n) }
  | none =>
    match task.requiredTaskDocs.find? (fun n => !taskDocs.contains n) with
    | some n => { tokens := tokens, result := .error ("missing required task doc: " ++ n) }
    | none =>
      if task.status ≠ issueTaskOpen then
        { tokens := tokens, result := .error ("task is not open") }
      else
        { tokens := tokens,
          result := .ok { task with
            claimedBy := actor,
            status := issueTaskInProgress,
            leaseExpiresAtMs := calcLeaseExpiryMs nowMs 0 taskTTLSec,
            updatedAt := nowStr } }

/-- `ClaimTask` (part_006, lines 201-277). The task, the token store and
the names of the existing issue/task doc files are explicit parameters;
`nowMs`/`nowStr` stand for the clock. On a still-reserved task the
caller-supplied token must match the reservation and the stored token
must be unused, attached, for this issue, and pointing at this task; it
is then marked used and the reservation cleared before the normal open
check. -/
def claimTaskCore (issueID taskID actor nextStepToken : String) (nowMs : Int)
    (nowStr : String) (task : IssueTask) (tokens : List (String × NextStepToken))
    (issueDocs taskDocs : List String) (taskTTLSec : Int) : ClaimOutcome :=
  if issueID = "" ∨ taskID = "" then
    { tokens := tokens, result := .error "issue_id and task_id are required" }
  else
    let actor := if actor = "" then "worker" else actor
    if task.reservedToken ≠ "" then
      if 0 < task.reservedUntilMs ∧ task.reservedUntilMs < nowMs then
        claimFinish actor issueDocs taskDocs taskTTLSec nowMs nowStr
          { task with reservedToken := "", reservedUntilMs := 0 } tokens
      else if trimGo nextStepToken = "" then
        { tokens := tokens, result := .error ("task '" ++ taskID ++ "' is reserved") }
      else if nextStepToken ≠ task.reservedToken then
        { tokens := tokens, result := .error ("task '" ++ taskID ++ "' is reserved") }
      else
        match lookupToken tokens nextStepToken with
        | none =>
          { tokens := tokens, result := .error ("task '" ++ taskID ++ "' is reserved") }
        | some tok =>
          if tok.issueID ≠ issueID ∨ tok.used ∨ ¬tok.attached ∨
              tok.nextStep.type ≠ "claim_task" ∨ tok.nextStep.taskID ≠ taskID then
            { tokens := tokens, result := .error ("task '" ++ taskID ++ "' is reserved") }
          else
            claimFinish actor issueDocs taskDocs taskTTLSec nowMs nowStr
              { task with reservedToken := "", reservedUntilMs := 0 }
              (setToken tokens nextStepToken { tok with used := true, usedAt := nowStr })
    else
      claimFinish actor issueDocs taskDocs taskTTLSec nowMs nowStr task tokens

/-- An open task reserved for token `ns_1` until instant 1000. -/
def reservedTask : IssueTask :=
  { emptyTask with
    id := "task-2",
    issueID := "issue-1",
    status := issueTaskOpen,
    difficulty := "easy",
    reservedToken := "ns_1",
    reservedUntilMs := 1000 }

/-- The attached, unused token reserving `task-2`. -/
def attachedToken : NextStepToken :=
  { token := "ns_1", issueID := "issue-1", actor := "lead",
    nextStep := { type := "claim_task", taskID := "task-2" }, attached := true,
    attachedAt := "t0", used := false, createdAt := "t0", usedAt := "" }

end Swarm

/-- C4 counterexample: with the default timeout 3600 s, a `waitIssues`
call supplying `timeout_sec = 5` waits only 5 seconds (and a non-positive
timeout yields 600 seconds), so the effective timeout of the blocking
entrypoint `waitIssues` is NOT raised to the 3600 s default, contrary to
the claim. -/
theorem C4_counterexample :
    Swarm.waitIssuesTimeout 5 = 5 ∧ Swarm.waitIssuesTimeout 5 < 3600 ∧
      Swarm.waitIssuesTimeout 0 = 600 ∧ Swarm.waitIssuesTimeout 0 < 3600 := by
  refine ⟨by decide, by decide, by decide, by decide⟩

/-- C4 (amended): waitIssueTasks, waitIssueTaskEvents, waitDeliveries,
submitDelivery and askIssueTask normalize the caller timeout with
`normalizeTimeoutSec`, whose result is never below `defaultTimeoutSec`;
submitIssueTask ignores the caller timeout and waits `defaultTimeoutSec`
itself; waitIssues alone replaces only non-positive timeouts with 600
seconds and keeps positive caller timeouts unchanged, so it is exempt
from the floor. -/
theorem C4_amended_timeout_floor :
    (∀ d t : Int, d ≤ Swarm.normalizeTimeoutSec d t) ∧
    (∀ d t : Int, Swarm.waitIssueTasksTimeout d t = Swarm.normalizeTimeoutSec d t) ∧
    (∀ d t : Int, Swarm.waitIssueTaskEventsTimeout d t = Swarm.normalizeTimeoutSec d t) ∧
    (∀ d t : Int, Swarm.waitDeliveriesTimeout d t = Swarm.normalizeTimeoutSec d t) ∧
    (∀ d t : Int, Swarm.submitDeliveryTimeout d t = Swarm.normalizeTimeoutSec d t) ∧
    (∀ d t : Int, Swarm.askIssueTaskTimeout d t = Swarm.normalizeTimeoutSec d t) ∧
    (∀ d t : Int, Swarm.submitIssueTaskWaitTimeout d t = d) ∧
    (∀ t : Int, Swarm.waitIssuesTimeout t = if t ≤ 0 then 600 else t) := by
  refine ⟨?_, fun _ _ => rfl, fun _ _ => rfl, fun _ _ => rfl, fun _ _ => rfl,
    fun _ _ => rfl, fun _ _ => rfl, fun _ => rfl⟩
  intro d t
  unfold Swarm.normalizeTimeoutSec
  split
  · exact le_refl d
  · split
    · exact le_refl d
    · omega

/-- C9: `waitIssueTaskEvents` returns an empty events array immediately,
without entering the blocking inbox poll, exactly when the issue's status
is done or canceled, the issue has no tasks, or every task is done or
canceled; it blocks on the inbox exactly when the issue is non-terminal
and at least one task is non-terminal. -/
theorem C9_wait_events_gate (issue : Swarm.Issue) (tasks : List Swarm.IssueTask) :
    (Swarm.waitIssueTaskEventsGate issue tasks = .immediateEmpty ↔
      (issue.status = Swarm.issueDone ∨ issue.status = Swarm.issueCanceled ∨ tasks = [] ∨
        ∀ t ∈ tasks, t.status = Swarm.issueTaskDone ∨ t.status = Swarm.issueTaskCanceled)) ∧
    (Swarm.waitIssueTaskEventsGate issue tasks = .blockOnInbox ↔
      (issue.status ≠ Swarm.issueDone ∧ issue.status ≠ Swarm.issueCanceled ∧
        ∃ t ∈ tasks, t.status ≠ Swarm.issueTaskDone ∧ t.status ≠ Swarm.issueTaskCanceled)) := by
  have hall : ((tasks.all fun t =>
        t.status == Swarm.issueTaskDone || t.status == Swarm.issueTaskCanceled) = true) ↔
      (∀ t ∈ tasks, t.status = Swarm.issueTaskDone ∨ t.status = Swarm.issueTaskCanceled) := by
    simp [List.all_eq_true]
  unfold Swarm.waitIssueTaskEventsGate
  split_ifs with h1 h2 h3
  · refine ⟨iff_of_true rfl ?_, iff_of_false (by decide) ?_⟩
    · exact h1.elim Or.inl (fun h => Or.inr (Or.inl h))
    · rintro ⟨ha, hb, -⟩
      exact h1.elim ha hb
  · refine ⟨iff_of_true rfl (Or.inr (Or.inr (Or.inl h2))), iff_of_false (by decide) ?_⟩
    rintro ⟨-, -, t, ht, -⟩
    rw [h2] at ht
    exact (List.not_mem_nil t) ht
  · refine ⟨iff_of_true rfl (Or.inr (Or.inr (Or.inr (hall.mp h3)))),
      iff_of_false (by decide) ?_⟩
    rintro ⟨-, -, t, ht, hd, hc⟩
    exact (hall.mp h3 t ht).elim hd hc
  · have hne := not_or.mp h1
    have hex : ∃ t ∈ tasks,
        ¬(t.status = Swarm.issueTaskDone ∨ t.status = Swarm.issueTaskCanceled) := by
      by_contra hc
      push_neg at hc
      exact h3 (hall.mpr (fun t ht => hc t ht))
    obtain ⟨t, ht, hnt⟩ := hex
    refine ⟨iff_of_false (by decide) ?_, iff_of_true rfl ?_⟩
    · rintro (ha | hb | hc | hd)
      · exact hne.1 ha
      · exact hne.2 hb
      · exact h2 hc
      · exact h3 (hall.mpr hd)
    · exact ⟨hne.1, hne.2, t, ht, (not_or.mp hnt).1, (not_or.mp hnt).2⟩

/-- C1 counterexample: every task of the issue is done, the sole done
task's cached submission artifacts changed `a.go`, and the delivery
request lists only `b.go`; `CreateDelivery` nevertheless succeeds because
it compares only the lengths, so `changed_files` need not cover the union
of the done tasks' changed files, contrary to the claim. -/
theorem C1_counterexample :
    Swarm.isOkE (Swarm.createDelivery "lead" "issue-1" "deliver" "" Swarm.artifactsOnlyB
      [Swarm.doneTaskA] true "delivery-1" "t0") = true ∧
    "a.go" ∈ Swarm.changedUnion [Swarm.doneTaskA] ∧
    "a.go" ∉ Swarm.artifactsOnlyB.changedFiles := by
  refine ⟨by decide, by decide, by decide⟩

/-- C1 (amended): `CreateDelivery` enforces only a cardinality bound — it
succeeds only when `artifacts.changed_files` has at least as many entries
as there are distinct non-blank files in the union of the done tasks'
cached `submission_artifacts.changed_files`, and any request with fewer
entries than that union fails with no delivery written; set inclusion is
not checked. -/
theorem C1_amended_count_bound
    (actor issueID summary refs : String) (artifacts : Swarm.DeliveryArtifacts)
    (tasks : List Swarm.IssueTask) (issueExists : Bool) (dID dAt : String) :
    (∀ d : Swarm.Delivery,
      Swarm.createDelivery actor issueID summary refs artifacts tasks issueExists dID dAt =
          .ok d →
        (Swarm.changedUnion tasks).length ≤ artifacts.changedFiles.length ∧
        d.artifacts = artifacts ∧ d.status = Swarm.deliveryOpen) ∧
    (artifacts.changedFiles.length < (Swarm.changedUnion tasks).length →
      Swarm.isOkE
        (Swarm.createDelivery actor issueID summary refs artifacts tasks issueExists dID dAt)
        = false) := by
  constructor
  · intro d hd
    unfold Swarm.createDelivery at hd
    repeat' split at hd
    all_goals first
      | exact Except.noConfusion hd
      | (cases hd; exact ⟨by omega, rfl, rfl⟩)
  · intro hlt
    unfold Swarm.createDelivery
    repeat' split
    all_goals first
      | rfl
      | omega

/-- Witness for the amended C1 theorem at concrete inputs: a successful
creation where the union has one distinct file, and a failing creation
whose `changed_files` has fewer entries than the union. -/
theorem C1_amended_count_bound_witness :
    (Swarm.changedUnion [Swarm.doneTaskA]).length ≤
      Swarm.artifactsOnlyB.changedFiles.length ∧
    Swarm.isOkE (Swarm.createDelivery "lead" "issue-1" "deliver" ""
      { Swarm.artifactsOnlyB with changedFiles := [] } [Swarm.doneTaskA] true
      "delivery-1" "t0") = false := by
  constructor
  · exact ((C1_amended_count_bound "lead" "issue-1" "deliver" "" Swarm.artifactsOnlyB
      [Swarm.doneTaskA] true "delivery-1" "t0").1 _ rfl).1
  · exact (C1_amended_count_bound "lead" "issue-1" "deliver" ""
      { Swarm.artifactsOnlyB with changedFiles := [] } [Swarm.doneTaskA] true
      "delivery-1" "t0").2 (by decide)

/-- Membership is preserved by `insertBy`. -/
theorem mem_insertBy {α : Type} (le : α → α → Bool) (x a : α) :
    ∀ l : List α, a ∈ Swarm.insertBy le x l ↔ a = x ∨ a ∈ l := by
  intro l
  induction l with
  | nil => simp [Swarm.insertBy]
  | cons y ys ih =>
    unfold Swarm.insertBy
    split
    · simp [List.mem_cons]
    · simp only [List.mem_cons, ih]
      tauto

/-- Membership is preserved by `sortByLe`. -/
theorem mem_sortByLe {α : Type} (le : α → α → Bool) (a : α) :
    ∀ l : List α, a ∈ Swarm.sortByLe le l ↔ a ∈ l := by
  intro l
  induction l with
  | nil => simp [Swarm.sortByLe]
  | cons y ys ih =>
    unfold Swarm.sortByLe
    rw [mem_insertBy]
    simp [ih]

/-- `validateSubmissionArtifactsGo` accepts exactly the artifacts whose
summary, test result and test output are non-blank after trimming and
whose changed-file and test-case lists are non-empty. -/
theorem validateSubmissionArtifactsGo_none_iff (a : Swarm.SubmissionArtifacts) :
    Swarm.validateSubmissionArtifactsGo a = none ↔
      (Swarm.trimGo a.summary ≠ "" ∧ a.changedFiles ≠ [] ∧ a.testCases ≠ [] ∧
       Swarm.trimGo a.testResult ≠ "" ∧ Swarm.trimGo a.testOutput ≠ "") := by
  unfold Swarm.validateSubmissionArtifactsGo
  split_ifs <;> simp_all

/-- C3 counterexample: a fully-populated submission with
`test_result = "flaky"` — a non-empty string outside `{passed, failed}` —
is accepted by `submitIssueTask`: the call succeeds and a Submission in
status `open` carrying that test result is created, contrary to the
claim that such calls fail. -/
theorem C3_counterexample :
    (∃ out, Swarm.submitTaskCore "issue-1" "task-1" "worker-1" Swarm.flakyArtifacts
        Swarm.claimedTask 1000 3600 "sub-1" "t1" = .ok out ∧
      out.2.status = Swarm.submissionOpen ∧
      out.2.artifacts.testResult = "flaky") ∧
    ("flaky" : String) ≠ "passed" ∧ ("flaky" : String) ≠ "failed" := by
  exact ⟨⟨_, rfl, rfl, rfl⟩, by decide, by decide⟩

/-- C3 (amended): `submitIssueTask` succeeds exactly when the ids are
non-empty, the artifacts have a trimmed-non-empty summary, at least one
changed file, at least one test case, and trimmed-non-empty test result
and test output, and the task is claimed by the acting worker with status
in_progress or blocked; membership of `test_result` in `{passed, failed}`
is NOT checked — any non-blank string is accepted. -/
theorem C3_amended_validation (issueID taskID actor : String)
    (artifacts : Swarm.SubmissionArtifacts) (task : Swarm.IssueTask)
    (nowMs dts : Int) (subID nowStr : String) :
    Swarm.isOkE (Swarm.submitTaskCore issueID taskID actor artifacts task nowMs dts
        subID nowStr) = true ↔
      (issueID ≠ "" ∧ taskID ≠ "" ∧
       Swarm.trimGo artifacts.summary ≠ "" ∧
       artifacts.changedFiles ≠ [] ∧
       artifacts.testCases ≠ [] ∧
       Swarm.trimGo artifacts.testResult ≠ "" ∧
       Swarm.trimGo artifacts.testOutput ≠ "" ∧
       Swarm.trimGo task.claimedBy ≠ "" ∧
       Swarm.trimGo task.claimedBy =
         Swarm.trimGo (if actor = "" then "worker" else actor) ∧
       (task.status = Swarm.issueTaskInProgress ∨
        task.status = Swarm.issueTaskBlocked)) := by
  by_cases h1 : issueID = "" ∨ taskID = ""
  · simp only [Swarm.submitTaskCore, if_pos h1, Swarm.isOkE, Bool.false_eq_true, false_iff]
    tauto
  cases hval : Swarm.validateSubmissionArtifactsGo artifacts with
  | some e =>
    have hnv := validateSubmissionArtifactsGo_none_iff artifacts
    rw [hval] at hnv
    simp only [Swarm.submitTaskCore, if_neg h1, hval, Swarm.isOkE, Bool.false_eq_true,
      false_iff]
    intro hc
    exact absurd (hnv.mpr ⟨hc.2.2.1, hc.2.2.2.1, hc.2.2.2.2.1, hc.2.2.2.2.2.1,
      hc.2.2.2.2.2.2.1⟩) (by simp)
  | none =>
    have hv := (validateSubmissionArtifactsGo_none_iff artifacts).mp hval
    by_cases h2 : Swarm.trimGo task.claimedBy = ""
    · simp only [Swarm.submitTaskCore, if_neg h1, hval, if_pos h2, Swarm.isOkE,
        Bool.false_eq_true, false_iff]
      tauto
    by_cases h3 : Swarm.trimGo task.claimedBy =
        Swarm.trimGo (if actor = "" then "worker" else actor)
    · by_cases h4 : task.status = Swarm.issueTaskInProgress ∨
          task.status = Swarm.issueTaskBlocked
      · have h4' : ¬(task.status ≠ Swarm.issueTaskInProgress ∧
            task.status ≠ Swarm.issueTaskBlocked) := by tauto
        have h3' : ¬(Swarm.trimGo task.claimedBy ≠
            Swarm.trimGo (if actor = "" then "worker" else actor)) := not_not_intro h3
        simp only [Swarm.submitTaskCore, if_neg h1, hval, if_neg h2, if_neg h3',
          if_neg h4', Swarm.isOkE, true_iff]
        push_neg at h1
        exact ⟨h1.1, h1.2, hv.1, hv.2.1, hv.2.2.1, hv.2.2.2.1, hv.2.2.2.2, h2, h3, h4⟩
      · have h4' : task.status ≠ Swarm.issueTaskInProgress ∧
            task.status ≠ Swarm.issueTaskBlocked := by tauto
        have h3' : ¬(Swarm.trimGo task.claimedBy ≠
            Swarm.trimGo (if actor = "" then "worker" else actor)) := not_not_intro h3
        simp only [Swarm.submitTaskCore, if_neg h1, hval, if_neg h2, if_neg h3',
          if_pos h4', Swarm.isOkE, Bool.false_eq_true, false_iff]
        tauto
    · have h3' : Swarm.trimGo task.claimedBy ≠
          Swarm.trimGo (if actor = "" then "worker" else actor) := h3
      simp only [Swarm.submitTaskCore, if_neg h1, hval, if_neg h2, if_pos h3',
        Swarm.isOkE, Bool.false_eq_true, false_iff]
      tauto

/-- C2 counterexample: with one open, unclaimed delivery in the store, a
`waitDeliveries` poll returns that delivery as-is — its status is still
`open`, not `in_review`, and `claimed_by` is empty — so the call neither
claims an acceptor inbox item nor transitions the delivery through
`ClaimDelivery`, contrary to the claim. -/
theorem C2_counterexample :
    Swarm.waitDeliveriesStep [Swarm.openDeliveryD] "" 50 = [Swarm.openDeliveryD] ∧
    Swarm.openDeliveryD.status = Swarm.deliveryOpen ∧
    Swarm.openDeliveryD.status ≠ Swarm.deliveryInReview ∧
    Swarm.openDeliveryD.claimedBy = "" := by
  exact ⟨rfl, rfl, by decide, rfl⟩

/-- C2 (amended): `waitDeliveries` polls `ListDeliveries` for deliveries
with the requested status (defaulting to `open`) and returns up to
`limit` of them unchanged, taken straight from the store: every returned
delivery is a member of the delivery store and still has status `open`;
no acceptor inbox item is claimed and no open→in_review transition is
performed by the wait. -/
theorem C2_amended_wait_returns_unclaimed
    (deliveries : List Swarm.Delivery) (limit : Int) :
    ∀ d ∈ Swarm.waitDeliveriesStep deliveries "" limit,
      d ∈ deliveries ∧ d.status = Swarm.deliveryOpen := by
  intro d hd
  have hd' : d ∈ Swarm.listDeliveriesGo deliveries Swarm.deliveryOpen :=
    List.take_subset _ _ hd
  unfold Swarm.listDeliveriesGo at hd'
  rw [mem_sortByLe] at hd'
  have hmem := List.mem_filter.mp hd'
  refine ⟨hmem.1, ?_⟩
  have hp := hmem.2
  simp only [Bool.or_eq_true, beq_iff_eq] at hp
  rcases hp with hp | hp
  · exact absurd hp (by decide)
  · exact hp

/-- Witness for the amended C2 theorem: the open delivery returned by the
concrete poll is in the store and still open. -/
theorem C2_amended_wait_returns_unclaimed_witness :
    Swarm.openDeliveryD ∈ [Swarm.openDeliveryD] ∧
    Swarm.openDeliveryD.status = Swarm.deliveryOpen :=
  C2_amended_wait_returns_unclaimed [Swarm.openDeliveryD] 50 Swarm.openDeliveryD
    (show Swarm.openDeliveryD ∈ [Swarm.openDeliveryD] from List.mem_singleton_self _)

/-- C7: after a sweep, every task that was in_progress, blocked or
submitted with a positive lease expiry earlier than now is reset: status
open, claimed_by / submitter / submission artifacts / verdict / feedback
/ completion_score / review artifacts / feedback details cleared, and an
`issue_task_expired` event for that task is appended to the issue's
event log. -/
theorem C7_sweep_resets_expired_tasks (nowMs : Int) (nowStr issueID : String)
    (tasks : List Swarm.IssueTask) (t : Swarm.IssueTask) (ht : t ∈ tasks)
    (hstatus : t.status = Swarm.issueTaskInProgress ∨ t.status = Swarm.issueTaskBlocked ∨
      t.status = Swarm.issueTaskSubmitted)
    (hpos : 0 < t.leaseExpiresAtMs) (hexp : t.leaseExpiresAtMs < nowMs) :
    Swarm.sweepTaskGo nowMs nowStr t ∈ (Swarm.sweepTasksGo nowMs nowStr issueID tasks).1 ∧
    (Swarm.sweepTaskGo nowMs nowStr t).id = t.id ∧
    (Swarm.sweepTaskGo nowMs nowStr t).status = Swarm.issueTaskOpen ∧
    (Swarm.sweepTaskGo nowMs nowStr t).claimedBy = "" ∧
    (Swarm.sweepTaskGo nowMs nowStr t).submitter = "" ∧
    (Swarm.sweepTaskGo nowMs nowStr t).submissionArtifacts =
      Swarm.emptySubmissionArtifacts ∧
    (Swarm.sweepTaskGo nowMs nowStr t).verdict = "" ∧
    (Swarm.sweepTaskGo nowMs nowStr t).feedback = "" ∧
    (Swarm.sweepTaskGo nowMs nowStr t).completionScore = 0 ∧
    (Swarm.sweepTaskGo nowMs nowStr t).reviewArtifacts = Swarm.emptyReviewArtifacts ∧
    (Swarm.sweepTaskGo nowMs nowStr t).feedbackDetails = [] ∧
    ∃ ev ∈ (Swarm.sweepTasksGo nowMs nowStr issueID tasks).2,
      ev.type = Swarm.eventIssueTaskExpired ∧ ev.taskID = t.id := by
  have hcond : Swarm.taskSweepExpiredCond nowMs t = true := by
    unfold Swarm.taskSweepExpiredCond
    rcases hstatus with h | h | h <;>
      simp [h, Swarm.issueTaskInProgress, Swarm.issueTaskBlocked,
        Swarm.issueTaskSubmitted, hpos, hexp]
  refine ⟨List.mem_map_of_mem _ ht,
    by simp [Swarm.sweepTaskGo, hcond], by simp [Swarm.sweepTaskGo, hcond],
    by simp [Swarm.sweepTaskGo, hcond], by simp [Swarm.sweepTaskGo, hcond],
    by simp [Swarm.sweepTaskGo, hcond], by simp [Swarm.sweepTaskGo, hcond],
    by simp [Swarm.sweepTaskGo, hcond], by simp [Swarm.sweepTaskGo, hcond],
    by simp [Swarm.sweepTaskGo, hcond], by simp [Swarm.sweepTaskGo, hcond],
    ⟨{ seq := 0, type := Swarm.eventIssueTaskExpired, issueID := issueID, taskID := t.id,
       actor := "system", kind := "",
       detail := "expired: " ++ t.status ++ " claimed_by=" ++ t.claimedBy,
       timestamp := nowStr },
     List.mem_filterMap.mpr ⟨t, ht, by rw [if_pos hcond]⟩, rfl, rfl⟩⟩

/-- Witness for C7 at a concrete expired in-progress task swept at
`nowMs = 200`. -/
theorem C7_sweep_resets_expired_tasks_witness :
    Swarm.sweepTaskGo 200 "t2" Swarm.expiredTask ∈
      (Swarm.sweepTasksGo 200 "t2" "issue-1" [Swarm.expiredTask]).1 ∧
    (Swarm.sweepTaskGo 200 "t2" Swarm.expiredTask).id = Swarm.expiredTask.id ∧
    (Swarm.sweepTaskGo 200 "t2" Swarm.expiredTask).status = Swarm.issueTaskOpen ∧
    (Swarm.sweepTaskGo 200 "t2" Swarm.expiredTask).claimedBy = "" ∧
    (Swarm.sweepTaskGo 200 "t2" Swarm.expiredTask).submitter = "" ∧
    (Swarm.sweepTaskGo 200 "t2" Swarm.expiredTask).submissionArtifacts =
      Swarm.emptySubmissionArtifacts ∧
    (Swarm.sweepTaskGo 200 "t2" Swarm.expiredTask).verdict = "" ∧
    (Swarm.sweepTaskGo 200 "t2" Swarm.expiredTask).feedback = "" ∧
    (Swarm.sweepTaskGo 200 "t2" Swarm.expiredTask).completionScore = 0 ∧
    (Swarm.sweepTaskGo 200 "t2" Swarm.expiredTask).reviewArtifacts =
      Swarm.emptyReviewArtifacts ∧
    (Swarm.sweepTaskGo 200 "t2" Swarm.expiredTask).feedbackDetails = [] ∧
    ∃ ev ∈ (Swarm.sweepTasksGo 200 "t2" "issue-1" [Swarm.expiredTask]).2,
      ev.type = Swarm.eventIssueTaskExpired ∧ ev.taskID = Swarm.expiredTask.id :=
  C7_sweep_resets_expired_tasks 200 "t2" "issue-1" [Swarm.expiredTask] Swarm.expiredTask
    (List.mem_singleton_self _) (Or.inl rfl) (by decide) (by decide)

/-- C10: `getNextStepToken` unconditionally adds the finished task's
points to the worker state's total_points and persists that state (even
when the scan later fails); the update has no memory of which task ids
were already counted, so repeating the call with the same finished task
adds the points twice, and the doubled total can land in a different
difficulty tier (20 points is `medium`, 40 is `focus`). -/
theorem C10_points_accumulate_unguarded (st : Swarm.IssueWorkerState)
    (finished : Swarm.IssueTask) (cs : Int) (nowStr nowStr2 : String) :
    ((Swarm.gnstStateStep st finished.points cs nowStr).state.totalPoints =
      st.totalPoints + finished.points) ∧
    ((Swarm.gnstStateStep (Swarm.gnstStateStep st finished.points cs nowStr).state
        finished.points cs nowStr2).state.totalPoints =
      st.totalPoints + 2 * finished.points) ∧
    (∀ issueID actor workerID tid : String, ∀ tasks : List Swarm.IssueTask,
      ∀ nowMs : Int, ∀ tokenID : String,
      (Swarm.getNextStepTokenCore issueID actor workerID tid cs st finished tasks nowMs
          tokenID nowStr).state.totalPoints =
        if issueID = "" ∨ workerID = "" ∨ tid = "" then st.totalPoints
        else if cs ≠ 1 ∧ cs ≠ 2 ∧ cs ≠ 5 then st.totalPoints
        else st.totalPoints + finished.points) ∧
    Swarm.baseDifficultyByPoints 20 = "medium" ∧
    Swarm.baseDifficultyByPoints 40 = "focus" := by
  have hstep : ∀ (s : Swarm.IssueWorkerState) (ns : String),
      (Swarm.gnstStateStep s finished.points cs ns).state.totalPoints =
        s.totalPoints + finished.points := by
    intro s ns
    unfold Swarm.gnstStateStep
    split <;> rfl
  refine ⟨hstep st nowStr, ?_, ?_, by decide, by decide⟩
  · rw [hstep, hstep st nowStr]
    ring
  · intro issueID actor workerID tid tasks nowMs tokenID
    unfold Swarm.getNextStepTokenCore
    have hfin : ∀ (a : String) (scan : Option Swarm.IssueTask),
        (Swarm.gnstFinish issueID a tokenID nowStr nowMs
          (Swarm.gnstStateStep st finished.points cs nowStr).state scan).state =
          (Swarm.gnstStateStep st finished.points cs nowStr).state := by
      intro a scan
      cases scan with
      | none => rfl
      | some chosen =>
        simp only [Swarm.gnstFinish]
        split_ifs <;> rfl
    split_ifs with h1 h2
    · rfl
    · rfl
    all_goals rw [hfin]
    all_goals exact hstep st nowStr

/-- A `setLock` is visible at its own key. -/
theorem lookupLock_setLock_self (L : List (String × Swarm.FileLock)) (f : String)
    (l : Swarm.FileLock) : Swarm.lookupLock (Swarm.setLock L f l) f = some l := by
  simp [Swarm.lookupLock, Swarm.setLock, List.find?]

/-- `find?` by key ignores filtering-out a different key. -/
theorem find_filter_ne_key (f g : String) (h : g ≠ f) :
    ∀ L : List (String × Swarm.FileLock),
      List.find? (fun p => p.1 == g) (L.filter (fun p => p.1 != f)) =
        List.find? (fun p => p.1 == g) L := by
  intro L
  induction L with
  | nil => rfl
  | cons p ps ih =>
    by_cases hpf : p.1 = f
    · have hdrop : (p.1 != f) = false := by simp [hpf]
      have hfind : (p.1 == g) = false := by
        simp only [beq_eq_false_iff_ne, ne_eq]
        intro hh
        exact h (hh.symm.trans hpf)
      simp [List.filter, List.find?, hdrop, hfind, ih]
    · have hkeep : (p.1 != f) = true := by simp [hpf]
      cases hg : (p.1 == g) with
      | true => simp [List.filter, List.find?, hkeep, hg]
      | false => simp [List.filter, List.find?, hkeep, hg, ih]

/-- `setLock` leaves other keys unchanged. -/
theorem lookupLock_setLock_other (L : List (String × Swarm.FileLock)) (f g : String)
    (l : Swarm.FileLock) (h : g ≠ f) :
    Swarm.lookupLock (Swarm.setLock L f l) g = Swarm.lookupLock L g := by
  simp only [Swarm.lookupLock, Swarm.setLock, Swarm.removeLock, List.find?]
  have hfg : (f == g) = false := by
    simp only [beq_eq_false_iff_ne, ne_eq]
    intro hh
    exact h hh.symm
  simp [hfg, find_filter_ne_key f g h L]

/-- `removeLock` clears its own key. -/
theorem lookupLock_removeLock_self (L : List (String × Swarm.FileLock)) (f : String) :
    Swarm.lookupLock (Swarm.removeLock L f) f = none := by
  simp only [Swarm.lookupLock, Swarm.removeLock]
  rw [List.find?_eq_none.mpr]
  · rfl
  · intro p hp
    have := (List.mem_filter.mp hp).2
    simp at this ⊢
    exact this

/-- `removeLock` leaves other keys unchanged. -/
theorem lookupLock_removeLock_other (L : List (String × Swarm.FileLock)) (f g : String)
    (h : g ≠ f) :
    Swarm.lookupLock (Swarm.removeLock L f) g = Swarm.lookupLock L g := by
  simp only [Swarm.lookupLock, Swarm.removeLock]
  rw [find_filter_ne_key f g h L]

/-- Rolling back locks never creates a lock. -/
theorem lookupLock_foldl_removeLock_none (f : String) :
    ∀ (acq : List String) (L : List (String × Swarm.FileLock)),
      Swarm.lookupLock L f = none →
      Swarm.lookupLock (acq.foldl Swarm.removeLock L) f = none := by
  intro acq
  induction acq with
  | nil => intro L h; exact h
  | cons a as ih =>
    intro L h
    by_cases hfa : f = a
    · subst hfa
      exact ih _ (lookupLock_removeLock_self L f)
    · exact ih _ ((lookupLock_removeLock_other L a f hfa).trans h)

/-- Rolling back removes every acquired lock. -/
theorem lookupLock_foldl_removeLock_mem (f : String) :
    ∀ (acq : List String) (L : List (String × Swarm.FileLock)),
      f ∈ acq → Swarm.lookupLock (acq.foldl Swarm.removeLock L) f = none := by
  intro acq
  induction acq with
  | nil => intro L h; exact absurd h (List.not_mem_nil f)
  | cons a as ih =>
    intro L h
    rcases List.mem_cons.mp h with h | h
    · subst h
      exact lookupLock_foldl_removeLock_none f as _ (lookupLock_removeLock_self L f)
    · exact ih _ h

/-- The error behaviour of the `tryLockFiles` per-file loop: a conflict
error names a file of the request whose pre-attempt lock is unexpired
and foreign, and afterwards every file that was unlocked at the start of
the attempt (or acquired during it) is unlocked again. -/
theorem tryLockFilesGo_error_spec (now ttlSec : Int) (leaseID taskID owner : String) :
    ∀ (fs : List String) (locks : List (String × Swarm.FileLock)) (acq : List String)
      (locks' : List (String × Swarm.FileLock)) (e : Swarm.LockConflict),
      Swarm.tryLockFilesGo now ttlSec leaseID taskID owner fs locks acq =
        (locks', .error e) →
      (∃ f ∈ fs, ∃ ex, Swarm.lookupLock locks f = some ex ∧ now < ex.expiresAt ∧
          ex.owner ≠ owner ∧
          e = { file := f, owner := ex.owner, taskID := ex.taskID,
                expiresAt := ex.expiresAt }) ∧
      ∀ f, (Swarm.lookupLock locks f = none ∨ f ∈ acq) →
        Swarm.lookupLock locks' f = none := by
  intro fs
  induction fs with
  | nil =>
    intro locks acq locks' e h
    exact absurd h (by simp [Swarm.tryLockFilesGo])
  | cons file rest ih =>
    intro locks acq locks' e h
    unfold Swarm.tryLockFilesGo at h
    cases hlk : Swarm.lookupLock locks file with
    | none =>
      simp only [hlk] at h
      obtain ⟨hA, hB⟩ := ih _ _ _ _ h
      constructor
      · obtain ⟨f, hf, ex, hlook, hlt, hne, he⟩ := hA
        by_cases hffile : f = file
        · subst hffile
          rw [lookupLock_setLock_self] at hlook
          cases hlook
          exact absurd rfl hne
        · rw [lookupLock_setLock_other _ _ _ _ hffile] at hlook
          exact ⟨f, List.mem_cons_of_mem _ hf, ex, hlook, hlt, hne, he⟩
      · intro f hf
        apply hB f
        by_cases hffile : f = file
        · exact Or.inr (hffile ▸ List.mem_cons_self _ _)
        · rcases hf with hf | hf
          · exact Or.inl ((lookupLock_setLock_other _ _ _ _ hffile).trans hf)
          · exact Or.inr (List.mem_cons_of_mem _ hf)
    | some existing =>
      simp only [hlk] at h
      by_cases hc : now < existing.expiresAt ∧ existing.owner ≠ owner
      · rw [if_pos hc] at h
        simp only [Prod.mk.injEq] at h
        obtain ⟨hlocks', he⟩ := h
        cases he
        subst hlocks'
        constructor
        · exact ⟨file, List.mem_cons_self _ _, existing, hlk, hc.1, hc.2, rfl⟩
        · intro f hf
          rcases hf with hf | hf
          · exact lookupLock_foldl_removeLock_none f acq locks hf
          · exact lookupLock_foldl_removeLock_mem f acq locks hf
      · rw [if_neg hc] at h
        obtain ⟨hA, hB⟩ := ih _ _ _ _ h
        constructor
        · obtain ⟨f, hf, ex, hlook, hlt, hne, he⟩ := hA
          by_cases hffile : f = file
          · subst hffile
            rw [lookupLock_setLock_self] at hlook
            cases hlook
            exact absurd rfl hne
          · rw [lookupLock_setLock_other _ _ _ _ hffile] at hlook
            exact ⟨f, List.mem_cons_of_mem _ hf, ex, hlook, hlt, hne, he⟩
        · intro f hf
          apply hB f
          by_cases hffile : f = file
          · exact Or.inr (hffile ▸ List.mem_cons_self _ _)
          · rcases hf with hf | hf
            · exact Or.inl ((lookupLock_setLock_other _ _ _ _ hffile).trans hf)
            · exact Or.inr (List.mem_cons_of_mem _ hf)

/-- C8: when a lockFiles attempt hits a file whose existing FileLock is
unexpired and owned by a different owner, the attempt fails with a
conflict error carrying the holding owner, task and expiry, and every
FileLock written earlier in the attempt is removed, so after the failure
no FileLock exists for any file of the request that was unlocked before
the attempt. -/
theorem C8_lock_conflict_rollback (now ttlSec : Int) (leaseID taskID owner : String)
    (files : List String) (locks locks' : List (String × Swarm.FileLock))
    (e : Swarm.LockConflict)
    (h : Swarm.tryLockFilesRun now ttlSec leaseID taskID owner files locks =
      (locks', .error e)) :
    (∃ f ∈ files, ∃ ex, Swarm.lookupLock locks f = some ex ∧ now < ex.expiresAt ∧
        ex.owner ≠ owner ∧
        e = { file := f, owner := ex.owner, taskID := ex.taskID,
              expiresAt := ex.expiresAt }) ∧
    ∀ f ∈ files, Swarm.lookupLock locks f = none →
      Swarm.lookupLock locks' f = none := by
  unfold Swarm.tryLockFilesRun at h
  cases hgo : Swarm.tryLockFilesGo now ttlSec leaseID taskID owner files locks [] with
  | mk locks'' res =>
    rw [hgo] at h
    cases res with
    | ok u =>
      cases u
      simp at h
    | error e' =>
      simp only [Prod.mk.injEq, Except.error.injEq] at h
      obtain ⟨h1, h2⟩ := h
      rw [h1, h2] at hgo
      have hspec := tryLockFilesGo_error_spec now ttlSec leaseID taskID owner files locks
        [] locks' e hgo
      exact ⟨hspec.1, fun f _ hnone => hspec.2 f (Or.inl hnone)⟩

/-- Witness for C8: worker B tries to lock `["a.go", "b.go"]` at instant
50 while A holds `b.go` until 100; the attempt fails with the conflict
naming A and the lock on `a.go` written during the attempt is rolled
back. -/
theorem C8_lock_conflict_rollback_witness :
    (∃ f ∈ ["a.go", "b.go"], ∃ ex,
        Swarm.lookupLock [("b.go", Swarm.lockByA)] f = some ex ∧ (50 : Int) < ex.expiresAt ∧
        ex.owner ≠ "B" ∧
        ({ file := "b.go", owner := "A", taskID := "task-A", expiresAt := 100 } :
            Swarm.LockConflict) =
          { file := f, owner := ex.owner, taskID := ex.taskID, expiresAt := ex.expiresAt }) ∧
    ∀ f ∈ ["a.go", "b.go"], Swarm.lookupLock [("b.go", Swarm.lockByA)] f = none →
      Swarm.lookupLock
        (Swarm.tryLockFilesRun 50 60 "l_B" "task-B" "B" ["a.go", "b.go"]
          [("b.go", Swarm.lockByA)]).1 f = none :=
  C8_lock_conflict_rollback 50 60 "l_B" "task-B" "B" ["a.go", "b.go"]
    [("b.go", Swarm.lockByA)] _ _ rfl

/-- `head?` yields a member. -/
theorem head?_memAux {α : Type} : ∀ {l : List α} {a : α}, l.head? = some a → a ∈ l := by
  intro l a h
  cases l with
  | nil => cases h
  | cons x xs =>
    cases h
    exact List.mem_cons_self _ _

/-- `getLast?` yields a member. -/
theorem getLast?_memAux {α : Type} : ∀ {l : List α} {a : α}, l.getLast? = some a → a ∈ l
  | [], _, h => by cases h
  | [x], a, h => by
    simp only [List.getLast?_singleton, Option.some.injEq] at h
    subst h
    exact List.mem_cons_self _ _
  | x :: y :: tl, a, h => by
    rw [List.getLast?_cons_cons] at h
    exact List.mem_cons_of_mem _ (getLast?_memAux h)

/-- `getElem?` yields a member. -/
theorem getElem?_memAux {α : Type} :
    ∀ (l : List α) (i : Nat) {a : α}, l[i]? = some a → a ∈ l := by
  intro l
  induction l with
  | nil =>
    intro i a h
    simp at h
  | cons x xs ih =>
    intro i a h
    cases i with
    | zero =>
      simp only [List.getElem?_cons_zero, Option.some.injEq] at h
      subst h
      exact List.mem_cons_self _ _
    | succ n =>
      rw [List.getElem?_cons_succ] at h
      exact List.mem_cons_of_mem _ (ih n h)

/-- `taskOrd a b` implies `b`'s points do not exceed `a`'s. -/
theorem taskOrd_points_le {a b : Swarm.IssueTask} (h : Swarm.taskOrd a b) :
    b.points ≤ a.points := by
  rcases h with h | ⟨h, -⟩
  · exact le_of_lt h
  · exact le_of_eq h.symm

/-- In a `taskOrd`-sorted list the head has maximal points. -/
theorem sorted_head?_points_max {l : List Swarm.IssueTask}
    (hs : List.Sorted Swarm.taskOrd l) {h : Swarm.IssueTask} (hh : l.head? = some h) :
    ∀ y ∈ l, y.points ≤ h.points := by
  cases l with
  | nil => cases hh
  | cons a tl =>
    cases hh
    intro y hy
    rcases List.mem_cons.mp hy with rfl | hy
    · exact le_refl _
    · exact taskOrd_points_le ((List.pairwise_cons.mp hs).1 y hy)

/-- In a `taskOrd`-sorted list the last element has minimal points. -/
theorem sorted_getLast?_points_min :
    ∀ {l : List Swarm.IssueTask}, List.Sorted Swarm.taskOrd l →
      ∀ {z : Swarm.IssueTask}, l.getLast? = some z → ∀ y ∈ l, z.points ≤ y.points := by
  intro l
  induction l with
  | nil => intro _ z hz; cases hz
  | cons a tl ih =>
    intro hs z hz y hy
    cases tl with
    | nil =>
      simp only [List.getLast?_singleton, Option.some.injEq] at hz
      subst hz
      rcases List.mem_singleton.mp hy with rfl
      exact le_refl _
    | cons b tl2 =>
      rw [List.getLast?_cons_cons] at hz
      rcases List.mem_cons.mp hy with rfl | hy
      · have hzmem : z ∈ b :: tl2 := getLast?_memAux hz
        exact taskOrd_points_le ((List.pairwise_cons.mp hs).1 z hzmem)
      · exact ih (List.pairwise_cons.mp hs).2 hz y hy

/-- `pickTaskByTier` returns a candidate iff there is one. -/
theorem pickTaskByTier_eq_none_iff (l : List Swarm.IssueTask) (tp : Int) :
    Swarm.pickTaskByTier l tp = none ↔ l = [] := by
  constructor
  · intro h
    by_contra hnil
    unfold Swarm.pickTaskByTier at h
    rw [if_neg hnil] at h
    have hlen : (List.insertionSort Swarm.taskOrd l).length = l.length :=
      (List.perm_insertionSort Swarm.taskOrd l).length_eq
    have hpos : 0 < (List.insertionSort Swarm.taskOrd l).length := by
      rw [hlen]
      exact List.length_pos.mpr hnil
    split_ifs at h
    · cases hsort : List.insertionSort Swarm.taskOrd l with
      | nil => rw [hsort] at hpos; simp at hpos
      | cons x xs =>
        rw [hsort] at h
        have h' : (x :: xs).head? = none := h
        cases h'
    · cases hsort : List.insertionSort Swarm.taskOrd l with
      | nil => rw [hsort] at hpos; simp at hpos
      | cons x xs =>
        rw [hsort] at h
        have h' : (x :: xs).getLast? = none := h
        have hsome : (x :: xs).getLast?.isSome := by
          rw [List.getLast?_isSome]
          simp
        rw [h'] at hsome
        simp at hsome
    · rw [List.getElem?_eq_none_iff] at h
      omega
  · intro h
    simp [h, Swarm.pickTaskByTier]

/-- What `pickTaskByTier` chooses: a member of the candidate list that
has maximal points at 100+ total points, minimal points between 30 and
49, and is the middle element of the points-descending id-ascending
sorted list otherwise. -/
theorem pickTaskByTier_spec (l : List Swarm.IssueTask) (tp : Int) (t : Swarm.IssueTask)
    (h : Swarm.pickTaskByTier l tp = some t) :
    t ∈ l ∧
    (100 ≤ tp → ∀ u ∈ l, u.points ≤ t.points) ∧
    ((30 ≤ tp ∧ tp < 50) → ∀ u ∈ l, t.points ≤ u.points) ∧
    (¬ 100 ≤ tp → ¬(30 ≤ tp ∧ tp < 50) →
      (List.insertionSort Swarm.taskOrd l)[(List.insertionSort Swarm.taskOrd l).length / 2]?
        = some t) := by
  unfold Swarm.pickTaskByTier at h
  by_cases hnil : l = []
  · rw [if_pos hnil] at h
    cases h
  rw [if_neg hnil] at h
  have hsorted : List.Sorted Swarm.taskOrd (List.insertionSort Swarm.taskOrd l) :=
    List.sorted_insertionSort _ _
  have hperm := List.perm_insertionSort Swarm.taskOrd l
  split_ifs at h with h100 h30
  · refine ⟨hperm.mem_iff.mp (head?_memAux h), fun _ u hu =>
      sorted_head?_points_max hsorted h u (hperm.mem_iff.mpr hu), ?_, ?_⟩
    · intro h30'
      omega
    · intro h100'
      exact absurd h100 h100'
  · refine ⟨hperm.mem_iff.mp (getLast?_memAux h), ?_, fun _ u hu =>
      sorted_getLast?_points_min hsorted h u (hperm.mem_iff.mpr hu), ?_⟩
    · intro h100'
      omega
    · intro _ h30'
      exact absurd h30 h30'
  · refine ⟨hperm.mem_iff.mp (getElem?_memAux _ _ h), ?_, ?_, fun _ _ => h⟩
    · intro h100'
      exact absurd h100' h100
    · intro h30'
      exact absurd h30' h30

/-- The scan with fallback stops at the first difficulty whose candidate
pool is non-empty. -/
theorem gnstScan_some_spec (tasks : List Swarm.IssueTask) (tp : Int) :
    ∀ (ds : List String) (t : Swarm.IssueTask),
      Swarm.gnstScan tasks tp ds = some t →
      ∃ ds₁ d ds₂, ds = ds₁ ++ d :: ds₂ ∧
        (∀ d' ∈ ds₁, Swarm.openCandidates tasks d' = []) ∧
        Swarm.pickTaskByTier (Swarm.openCandidates tasks d) tp = some t := by
  intro ds
  induction ds with
  | nil =>
    intro t h
    cases h
  | cons d rest ih =>
    intro t h
    unfold Swarm.gnstScan at h
    cases hp : Swarm.pickTaskByTier (Swarm.openCandidates tasks d) tp with
    | some u =>
      rw [hp] at h
      cases h
      exact ⟨[], d, rest, rfl, fun x hx => absurd hx (List.not_mem_nil x), hp⟩
    | none =>
      rw [hp] at h
      obtain ⟨ds₁, d', ds₂, heq, hnone, hpick⟩ := ih t h
      refine ⟨d :: ds₁, d', ds₂, by rw [heq]; rfl, ?_, hpick⟩
      intro x hx
      rcases List.mem_cons.mp hx with rfl | hx
      · exact (pickTaskByTier_eq_none_iff _ tp).mp hp
      · exact hnone x hx

/-- The scan returns nothing iff every difficulty in the fallback order
has no open candidate. -/
theorem gnstScan_none_iff (tasks : List Swarm.IssueTask) (tp : Int) :
    ∀ ds : List String,
      Swarm.gnstScan tasks tp ds = none ↔
        ∀ d ∈ ds, Swarm.openCandidates tasks d = [] := by
  intro ds
  induction ds with
  | nil => simp [Swarm.gnstScan]
  | cons d rest ih =>
    unfold Swarm.gnstScan
    cases hp : Swarm.pickTaskByTier (Swarm.openCandidates tasks d) tp with
    | some u =>
      simp only [false_iff]
      constructor
      · intro h
        cases h
      · intro h
        have := (pickTaskByTier_eq_none_iff _ tp).mpr (h d (List.mem_cons_self _ _))
        rw [this] at hp
        cases hp
    | none =>
      rw [ih]
      constructor
      · intro h x hx
        rcases List.mem_cons.mp hx with rfl | hx
        · exact (pickTaskByTier_eq_none_iff _ tp).mp hp
        · exact h x hx
      · intro h x hx
        exact h x (List.mem_cons_of_mem _ hx)

/-- C6: `getNextStepToken` scans open tasks per difficulty in the
fallback order focus→medium→easy (medium→easy, easy→easy); the scan
stops at the first difficulty with a non-empty open-candidate pool,
which is sorted by points descending then id ascending, and the chosen
task has maximal points when total_points ≥ 100, minimal points when
30 ≤ total_points < 50, and is the middle element of the sorted pool
otherwise; when no difficulty yields a candidate the minted token's
next_step is `end`. -/
theorem C6_candidate_scan_tiering (tasks : List Swarm.IssueTask) (tp : Int) (nd : String) :
    (Swarm.difficultyFallbackOrder "focus" = ["focus", "medium", "easy"] ∧
     Swarm.difficultyFallbackOrder "medium" = ["medium", "easy"] ∧
     Swarm.difficultyFallbackOrder "easy" = ["easy"]) ∧
    (Swarm.gnstScan tasks tp (Swarm.difficultyFallbackOrder nd) = none ↔
      ∀ d ∈ Swarm.difficultyFallbackOrder nd, Swarm.openCandidates tasks d = []) ∧
    (∀ issueID a tokenID nowStr : String, ∀ nowMs : Int,
      ∀ stS : Swarm.IssueWorkerState,
      Swarm.gnstScan tasks tp (Swarm.difficultyFallbackOrder nd) = none →
      ∃ tok, Swarm.gnstFinish issueID a tokenID nowStr nowMs stS
          (Swarm.gnstScan tasks tp (Swarm.difficultyFallbackOrder nd)) =
          { state := stS, result := .ok (tok, none) } ∧
        tok.nextStep = { type := "end", taskID := "" }) ∧
    (∀ t, Swarm.gnstScan tasks tp (Swarm.difficultyFallbackOrder nd) = some t →
      ∃ ds₁ d ds₂, Swarm.difficultyFallbackOrder nd = ds₁ ++ d :: ds₂ ∧
        (∀ d' ∈ ds₁, Swarm.openCandidates tasks d' = []) ∧
        Swarm.openCandidates tasks d ≠ [] ∧
        t ∈ Swarm.openCandidates tasks d ∧
        (100 ≤ tp → ∀ u ∈ Swarm.openCandidates tasks d, u.points ≤ t.points) ∧
        ((30 ≤ tp ∧ tp < 50) → ∀ u ∈ Swarm.openCandidates tasks d, t.points ≤ u.points) ∧
        (¬ 100 ≤ tp → ¬(30 ≤ tp ∧ tp < 50) →
          (List.insertionSort Swarm.taskOrd
            (Swarm.openCandidates tasks d))[(List.insertionSort Swarm.taskOrd
              (Swarm.openCandidates tasks d)).length / 2]? = some t)) := by
  refine ⟨⟨rfl, rfl, rfl⟩, gnstScan_none_iff tasks tp _, ?_, ?_⟩
  · intro issueID a tokenID nowStr nowMs stS hnone
    rw [hnone]
    exact ⟨_, rfl, rfl⟩
  · intro t h
    obtain ⟨ds₁, d, ds₂, heq, hnone, hpick⟩ := gnstScan_some_spec tasks tp _ t h
    obtain ⟨hmem, h100, h30, hmid⟩ := pickTaskByTier_spec _ tp t hpick
    have hne : Swarm.openCandidates tasks d ≠ [] := by
      intro hnil
      rw [(pickTaskByTier_eq_none_iff _ tp).mpr hnil] at hpick
      cases hpick
    exact ⟨ds₁, d, ds₂, heq, hnone, hne, hmem, h100, h30, hmid⟩

/-- Witness for C6: with two open easy tasks worth 1 and 3 points and
0 total points, the scan over the `easy` fallback picks the middle (here
last) element of the points-descending sort, i.e. the 1-point task. -/
theorem C6_candidate_scan_tiering_witness :
    ∃ ds₁ d ds₂, Swarm.difficultyFallbackOrder "easy" = ds₁ ++ d :: ds₂ ∧
      (∀ d' ∈ ds₁, Swarm.openCandidates [Swarm.easyOne, Swarm.easyTwo] d' = []) ∧
      Swarm.openCandidates [Swarm.easyOne, Swarm.easyTwo] d ≠ [] ∧
      Swarm.easyOne ∈ Swarm.openCandidates [Swarm.easyOne, Swarm.easyTwo] d ∧
      (100 ≤ (0 : Int) → ∀ u ∈ Swarm.openCandidates [Swarm.easyOne, Swarm.easyTwo] d,
        u.points ≤ Swarm.easyOne.points) ∧
      ((30 ≤ (0 : Int) ∧ (0 : Int) < 50) →
        ∀ u ∈ Swarm.openCandidates [Swarm.easyOne, Swarm.easyTwo] d,
          Swarm.easyOne.points ≤ u.points) ∧
      (¬ 100 ≤ (0 : Int) → ¬(30 ≤ (0 : Int) ∧ (0 : Int) < 50) →
        (List.insertionSort Swarm.taskOrd
          (Swarm.openCandidates [Swarm.easyOne, Swarm.easyTwo] d))[(List.insertionSort
            Swarm.taskOrd (Swarm.openCandidates
              [Swarm.easyOne, Swarm.easyTwo] d)).length / 2]? = some Swarm.easyOne) :=
  (C6_candidate_scan_tiering [Swarm.easyOne, Swarm.easyTwo] 0 "easy").2.2.2
    Swarm.easyOne rfl

/-- A written token is visible at its own key. -/
theorem lookupToken_setToken_self (toks : List (String × Swarm.NextStepToken))
    (k : String) (tok : Swarm.NextStepToken) :
    Swarm.lookupToken (Swarm.setToken toks k tok) k = some tok := by
  simp [Swarm.lookupToken, Swarm.setToken, List.find?]

/-- `claimFinish` never changes the token store. -/
theorem claimFinish_tokens_eq (actor : String) (issueDocs taskDocs : List String)
    (taskTTLSec nowMs : Int) (nowStr : String) (task : Swarm.IssueTask)
    (tokens : List (String × Swarm.NextStepToken)) :
    (Swarm.claimFinish actor issueDocs taskDocs taskTTLSec nowMs nowStr task
      tokens).tokens = tokens := by
  unfold Swarm.claimFinish
  cases task.requiredIssueDocs.find? (fun n => !issueDocs.contains n) with
  | some n => rfl
  | none =>
    cases task.requiredTaskDocs.find? (fun n => !taskDocs.contains n) with
    | some n => rfl
    | none =>
      split_ifs <;> rfl

/-- When `claimFinish` succeeds, the input task was open and the result
is the input task claimed by the actor with a fresh lease. -/
theorem claimFinish_ok_spec (actor : String) (issueDocs taskDocs : List String)
    (taskTTLSec nowMs : Int) (nowStr : String) (task : Swarm.IssueTask)
    (tokens : List (String × Swarm.NextStepToken)) (t' : Swarm.IssueTask)
    (h : (Swarm.claimFinish actor issueDocs taskDocs taskTTLSec nowMs nowStr task
      tokens).result = .ok t') :
    task.status = Swarm.issueTaskOpen ∧
    t' = { task with
      claimedBy := actor,
      status := Swarm.issueTaskInProgress,
      leaseExpiresAtMs := Swarm.calcLeaseExpiryMs nowMs 0 taskTTLSec,
      updatedAt := nowStr } := by
  unfold Swarm.claimFinish at h
  cases hfind1 : task.requiredIssueDocs.find? (fun n => !issueDocs.contains n) with
  | some n =>
    rw [hfind1] at h
    exact Except.noConfusion h
  | none =>
    rw [hfind1] at h
    cases hfind2 : task.requiredTaskDocs.find? (fun n => !taskDocs.contains n) with
    | some n =>
      rw [hfind2] at h
      exact Except.noConfusion h
    | none =>
      rw [hfind2] at h
      by_cases hopen : task.status ≠ Swarm.issueTaskOpen
      · rw [if_pos hopen] at h
        exact Except.noConfusion h
      · rw [if_neg hopen] at h
        cases h
        exact ⟨not_not.mp hopen, rfl⟩

/-- C5: claiming a reserved task. When the reservation has expired it is
cleared and the claim proceeds exactly as for an unreserved task; while
unexpired, a successful claim requires the caller's `next_step_token` to
equal `task.reserved_token` and the stored token to be for this issue,
unused, attached and pointing at this task via `claim_task`; on success
the token is persisted with `used = true` and the returned task has the
reservation cleared and is in_progress. -/
theorem C5_claim_reserved_token_protocol (issueID taskID actor nextStepToken : String)
    (nowMs : Int) (nowStr : String) (task : Swarm.IssueTask)
    (tokens : List (String × Swarm.NextStepToken)) (issueDocs taskDocs : List String)
    (taskTTLSec : Int)
    (hres : task.reservedToken ≠ "") (hpos : 0 < task.reservedUntilMs) :
    (task.reservedUntilMs < nowMs →
      Swarm.claimTaskCore issueID taskID actor nextStepToken nowMs nowStr task tokens
          issueDocs taskDocs taskTTLSec =
        Swarm.claimTaskCore issueID taskID actor nextStepToken nowMs nowStr
          { task with reservedToken := "", reservedUntilMs := 0 } tokens
          issueDocs taskDocs taskTTLSec) ∧
    (nowMs ≤ task.reservedUntilMs →
      ∀ t', (Swarm.claimTaskCore issueID taskID actor nextStepToken nowMs nowStr task
          tokens issueDocs taskDocs taskTTLSec).result = .ok t' →
        nextStepToken = task.reservedToken ∧
        ∃ tok, Swarm.lookupToken tokens nextStepToken = some tok ∧
          tok.issueID = issueID ∧ tok.used = false ∧ tok.attached = true ∧
          tok.nextStep = { type := "claim_task", taskID := taskID } ∧
          Swarm.lookupToken (Swarm.claimTaskCore issueID taskID actor nextStepToken
              nowMs nowStr task tokens issueDocs taskDocs taskTTLSec).tokens
              nextStepToken =
            some { tok with used := true, usedAt := nowStr } ∧
          t'.reservedToken = "" ∧ t'.reservedUntilMs = 0 ∧
          t'.status = Swarm.issueTaskInProgress ∧
          t'.claimedBy = (if actor = "" then "worker" else actor)) := by
  constructor
  · intro hexp
    by_cases hids : issueID = "" ∨ taskID = ""
    · unfold Swarm.claimTaskCore
      rw [if_pos hids, if_pos hids]
    · have hcond : 0 < task.reservedUntilMs ∧ task.reservedUntilMs < nowMs := ⟨hpos, hexp⟩
      have hclear : ({ task with reservedToken := "", reservedUntilMs := 0 } :
          Swarm.IssueTask).reservedToken = "" := rfl
      simp only [Swarm.claimTaskCore, if_neg hids, hres, if_pos hcond, hclear,
        ne_eq, not_true_eq_false, if_pos, if_true, if_false]
      simp [hres, hcond]
  · intro hnotexp t' hok
    have hcond : ¬(0 < task.reservedUntilMs ∧ task.reservedUntilMs < nowMs) := by
      intro hc
      omega
    by_cases hids : issueID = "" ∨ taskID = ""
    · simp [Swarm.claimTaskCore, hids] at hok
    by_cases htrim : Swarm.trimGo nextStepToken = ""
    · simp [Swarm.claimTaskCore, hids, hres, hcond, htrim] at hok
    by_cases heq : nextStepToken = task.reservedToken
    swap
    · simp [Swarm.claimTaskCore, hids, hres, hcond, htrim, heq] at hok
    have heq' : ¬ nextStepToken ≠ task.reservedToken := not_not_intro heq
    cases hlk : Swarm.lookupToken tokens nextStepToken with
    | none =>
      simp [Swarm.claimTaskCore, hids, hres, hcond, htrim, heq', hlk] at hok
    | some tok =>
      by_cases hval : tok.issueID ≠ issueID ∨ tok.used ∨ ¬tok.attached ∨
          tok.nextStep.type ≠ "claim_task" ∨ tok.nextStep.taskID ≠ taskID
      · have hcore2 : Swarm.claimTaskCore issueID taskID actor nextStepToken nowMs nowStr
            task tokens issueDocs taskDocs taskTTLSec =
            { tokens := tokens,
              result := Except.error ("task '" ++ taskID ++ "' is reserved") } := by
          unfold Swarm.claimTaskCore
          rw [if_neg hids, if_pos hres, if_neg hcond, if_neg htrim, if_neg heq']
          simp only [hlk]
          rw [if_pos hval]
        rw [hcore2] at hok
        exact Except.noConfusion hok
      · have hcore : Swarm.claimTaskCore issueID taskID actor nextStepToken nowMs nowStr
            task tokens issueDocs taskDocs taskTTLSec =
            Swarm.claimFinish (if actor = "" then "worker" else actor) issueDocs taskDocs
              taskTTLSec nowMs nowStr
              { task with reservedToken := "", reservedUntilMs := 0 }
              (Swarm.setToken tokens nextStepToken
                { tok with used := true, usedAt := nowStr }) := by
          unfold Swarm.claimTaskCore
          rw [if_neg hids, if_pos hres, if_neg hcond, if_neg htrim, if_neg heq']
          simp only [hlk]
          rw [if_neg hval]
        rw [hcore] at hok
        push_neg at hval
        obtain ⟨hiss, hused, hatt, htype, htask⟩ := hval
        obtain ⟨-, ht'⟩ := claimFinish_ok_spec _ _ _ _ _ _ _ _ _ hok
        refine ⟨heq, tok, rfl, hiss, ?_, ?_, ?_, ?_, ?_, ?_, ?_, ?_⟩
        · exact Bool.not_eq_true tok.used ▸ hused
        · exact hatt
        · cases htok : tok.nextStep with
          | mk ty tid =>
            rw [htok] at htype htask
            simp at htype htask
            rw [htype, htask]
        · rw [hcore, claimFinish_tokens_eq]
          exact lookupToken_setToken_self tokens nextStepToken _
        · rw [ht']
        · rw [ht']
        · rw [ht']
        · rw [ht']

/-- Witness for C5: worker-1 claims the reserved task `task-2` at instant
500 (before the reservation expiry 1000) supplying the matching attached
token; the call succeeds, the token is stored used, and the returned
task is in_progress with the reservation cleared. -/
theorem C5_claim_reserved_token_protocol_witness :
    "ns_1" = Swarm.reservedTask.reservedToken ∧
    ∃ tok, Swarm.lookupToken [("ns_1", Swarm.attachedToken)] "ns_1" = some tok ∧
      tok.issueID = "issue-1" ∧ tok.used = false ∧ tok.attached = true ∧
      tok.nextStep = { type := "claim_task", taskID := "task-2" } ∧
      Swarm.lookupToken (Swarm.claimTaskCore "issue-1" "task-2" "worker-1" "ns_1" 500
          "t1" Swarm.reservedTask [("ns_1", Swarm.attachedToken)] [] [] 600).tokens
          "ns_1" =
        some { tok with used := true, usedAt := "t1" } ∧
      ({ Swarm.reservedTask with
          reservedToken := "",
          reservedUntilMs := 0,
          claimedBy := "worker-1",
          status := Swarm.issueTaskInProgress,
          leaseExpiresAtMs := 600500,
          updatedAt := "t1" } : Swarm.IssueTask).reservedToken = "" ∧
      ({ Swarm.reservedTask with
          reservedToken := "",
          reservedUntilMs := 0,
          claimedBy := "worker-1",
          status := Swarm.issueTaskInProgress,
          leaseExpiresAtMs := 600500,
          updatedAt := "t1" } : Swarm.IssueTask).reservedUntilMs = 0 ∧
      ({ Swarm.reservedTask with
          reservedToken := "",
          reservedUntilMs := 0,
          claimedBy := "worker-1",
          status := Swarm.issueTaskInProgress,
          leaseExpiresAtMs := 600500,
          updatedAt := "t1" } : Swarm.IssueTask).status = Swarm.issueTaskInProgress ∧
      ({ Swarm.reservedTask with
          reservedToken := "",
          reservedUntilMs := 0,
          claimedBy := "worker-1",
          status := Swarm.issueTaskInProgress,
          leaseExpiresAtMs := 600500,
          updatedAt := "t1" } : Swarm.IssueTask).claimedBy =
        (if "worker-1" = "" then "worker" else "worker-1") :=
  (C5_claim_reserved_token_protocol "issue-1" "task-2" "worker-1" "ns_1" 500 "t1"
    Swarm.reservedTask [("ns_1", Swarm.attachedToken)] [] [] 600 (by decide)
    (by decide)).2 (by decide) _ rfl
